import Mathlib

/-!
Shallow embedding of the inventory-management backend (`src/backend/server.py`).

The service stores two MongoDB collections, `residents` and `items`; we model
each collection as a `List` of records in natural (insertion) order.  Each
route handler becomes a pure function that takes the current collection state
and returns an HTTP-level result paired with the new state.  `datetime.now`
is passed in as a `today : String` parameter.  Python `int` is `Int`; the
`price : float` field is only ever stored and echoed back, never computed
with, so it is modelled by `Rat`.
-/

namespace Backend

/-- HTTPException(status_code, detail). -/
structure HTTPError where
  status_code : Nat
  detail : String
deriving DecidableEq

/-- Resident model (server.py lines 32-34). -/
structure Resident where
  id : String
  name : String
deriving DecidableEq

/-- Purchase model (server.py lines 43-46). -/
structure Purchase where
  date : String
  qty : Int
  price : Rat := 0
deriving DecidableEq

/-- UsageHistory model (server.py lines 49-51). -/
structure UsageHistory where
  date : String
  qty : Int
deriving DecidableEq

/-- Item model (server.py lines 54-63), with the source defaults. -/
structure Item where
  id : String
  residentId : String
  name : String
  quantity : Int := 0
  used : Int := 0
  min : Int := 0
  source : String := "購入"
  purchases : List Purchase := []
  usageHistory : List UsageHistory := []
deriving DecidableEq

/-- ItemCreate request body (server.py lines 65-71). -/
structure ItemCreate where
  residentId : String
  name : String
  quantity : Int := 0
  used : Int := 0
  min : Int := 0
  source : String := "購入"
deriving DecidableEq

/-- ItemUpdate request body (server.py lines 73-78): all fields optional. -/
structure ItemUpdate where
  name : Option String := none
  quantity : Option Int := none
  used : Option Int := none
  min : Option Int := none
  source : Option String := none
deriving DecidableEq

/-- PurchaseCreate request body (server.py lines 80-82). -/
structure PurchaseCreate where
  qty : Int
  price : Rat := 0
deriving DecidableEq

/-- UsageCreate request body (server.py lines 84-85). -/
structure UsageCreate where
  qty : Int
deriving DecidableEq

/-- Model of `db.items.find_one(\x7b"id": item_id\x7d)`: the first document
whose `id` matches. -/
def findItem (itemId : String) (items : List Item) : Option Item :=
  items.find? (fun it => it.id == itemId)

/-- Model of `db.items.update_one(filter, update)`: apply `f` to the first
document matching `p`, leaving the rest untouched. -/
def updateFirst (p : Item → Bool) (f : Item → Item) : List Item → List Item
  | [] => []
  | it :: rest => if p it then f it :: rest else it :: updateFirst p f rest

/-- POST /api/items (server.py lines 163-168): builds an `Item` from the
`ItemCreate` fields (ids are generated by uuid4; we pass `newId` in),
inserts it, and returns the constructed object. -/
def create_item (newId : String) (item : ItemCreate) (items : List Item) :
    Item × List Item :=
  let item_obj : Item :=
    { id := newId, residentId := item.residentId, name := item.name,
      quantity := item.quantity, used := item.used, min := item.min,
      source := item.source, purchases := [], usageHistory := [] }
  (item_obj, items ++ [item_obj])

/-- The `$set` document of PUT /api/items (server.py line 176): only the
fields of the body that are not None are applied. -/
def applyItemUpdate (u : ItemUpdate) (it : Item) : Item :=
  { it with
    name := u.name.getD it.name,
    quantity := u.quantity.getD it.quantity,
    used := u.used.getD it.used,
    min := u.min.getD it.min,
    source := u.source.getD it.source }

/-- PUT /api/items/\x7bitem_id\x7d (server.py lines 170-183). -/
def update_item (itemId : String) (item_update : ItemUpdate)
    (items : List Item) : Except HTTPError Item × List Item :=
  match findItem itemId items with
  | none => (.error ⟨404, "Item not found"⟩, items)
  | some _ =>
    let items' := updateFirst (fun it => it.id == itemId)
      (applyItemUpdate item_update) items
    match findItem itemId items' with
    | none => (.error ⟨500, "Internal Server Error"⟩, items')
    | some updated => (.ok updated, items')

/-- POST /api/items/\x7bitem_id\x7d/purchase (server.py lines 194-217). -/
def add_purchase (today itemId : String) (purchase : PurchaseCreate)
    (items : List Item) : Except HTTPError Item × List Item :=
  match findItem itemId items with
  | none => (.error ⟨404, "Item not found"⟩, items)
  | some _ =>
    let new_purchase : Purchase :=
      { date := today, qty := purchase.qty, price := purchase.price }
    let items' := updateFirst (fun it => it.id == itemId)
      (fun it => { it with quantity := it.quantity + purchase.qty,
                           purchases := it.purchases ++ [new_purchase] }) items
    match findItem itemId items' with
    | none => (.error ⟨500, "Internal Server Error"⟩, items')
    | some updated => (.ok updated, items')

/-- POST /api/items/\x7bitem_id\x7d/usage (server.py lines 220-248). -/
def add_usage (today itemId : String) (usage : UsageCreate)
    (items : List Item) : Except HTTPError Item × List Item :=
  match findItem itemId items with
  | none => (.error ⟨404, "Item not found"⟩, items)
  | some it =>
    if it.quantity < usage.qty then
      (.error ⟨400, "Not enough quantity in stock"⟩, items)
    else
      let new_usage : UsageHistory := { date := today, qty := usage.qty }
      let items' := updateFirst (fun x => x.id == itemId)
        (fun x => { x with quantity := x.quantity - usage.qty,
                           used := x.used + usage.qty,
                           usageHistory := x.usageHistory ++ [new_usage] }) items
      match findItem itemId items' with
      | none => (.error ⟨500, "Internal Server Error"⟩, items')
      | some updated => (.ok updated, items')

/-- POST /api/items/\x7bitem_id\x7d/adjust-quantity (server.py lines 251-265). -/
def adjust_quantity (itemId : String) (delta : Int)
    (items : List Item) : Except HTTPError Item × List Item :=
  match findItem itemId items with
  | none => (.error ⟨404, "Item not found"⟩, items)
  | some it =>
    let new_quantity := max 0 (it.quantity + delta)
    let items' := updateFirst (fun x => x.id == itemId)
      (fun x => { x with quantity := new_quantity }) items
    match findItem itemId items' with
    | none => (.error ⟨500, "Internal Server Error"⟩, items')
    | some updated => (.ok updated, items')

/-- DELETE /api/residents/\x7bresident_id\x7d (server.py lines 141-151):
`delete_one` removes the first matching resident (404 when nothing was
deleted), then `delete_many` removes every item whose `residentId` matches. -/
def delete_resident (residentId : String) (residents : List Resident)
    (items : List Item) :
    Except HTTPError String × List Resident × List Item :=
  match residents.find? (fun r => r.id == residentId) with
  | none => (.error ⟨404, "Resident not found"⟩, residents, items)
  | some _ =>
    let residents' := residents.eraseP (fun r => r.id == residentId)
    let items' := items.filter (fun it => !(it.residentId == residentId))
    (.ok "Resident and associated items deleted successfully",
     residents', items')

/-- GET /api/items (server.py lines 154-161): the filter is added only when
`resident_id` is truthy in Python, i.e. present and non-empty; results are
capped at 1000 by `to_list(1000)`. -/
def get_items (resident_id : Option String) (items : List Item) :
    List Item :=
  let pred : Item → Bool :=
    match resident_id with
    | some rid => if rid == "" then (fun _ => true)
                  else (fun it => it.residentId == rid)
    | none => fun _ => true
  (items.filter pred).take 1000

end Backend

namespace Backend

theorem updateFirst_nil (p : Item → Bool) (f : Item → Item) :
    updateFirst p f [] = [] := rfl

theorem updateFirst_cons (p : Item → Bool) (f : Item → Item) (a : Item)
    (l : List Item) :
    updateFirst p f (a :: l) =
      if p a then f a :: l else a :: updateFirst p f l := rfl

/-- If `f` preserves the search predicate, re-reading after `update_one`
returns the image of the first match under `f`. -/
theorem find?_updateFirst (p : Item → Bool) (f : Item → Item)
    (hf : ∀ x, p (f x) = p x) (l : List Item) :
    (updateFirst p f l).find? p = (l.find? p).map f := by
  induction l with
  | nil => rfl
  | cons a l ih =>
    by_cases h : p a
    · rw [updateFirst_cons, if_pos h,
        List.find?_cons_of_pos _ (by rw [hf]; exact h),
        List.find?_cons_of_pos _ h]
      rfl
    · rw [updateFirst_cons, if_neg h, List.find?_cons_of_neg _ h,
        List.find?_cons_of_neg _ h, ih]

/-- Every element of the collection after `update_one` is either an original
document or the image under `f` of the first match. -/
theorem mem_updateFirst {p : Item → Bool} {f : Item → Item} :
    ∀ {l : List Item} {y : Item}, y ∈ updateFirst p f l →
      y ∈ l ∨ ∃ x, l.find? p = some x ∧ y = f x := by
  intro l
  induction l with
  | nil => intro y hy; rw [updateFirst_nil] at hy; cases hy
  | cons a l ih =>
    intro y hy
    rw [updateFirst_cons] at hy
    by_cases h : p a
    · rw [if_pos h] at hy
      rcases List.mem_cons.mp hy with h1 | h1
      · exact Or.inr ⟨a, List.find?_cons_of_pos _ h, h1⟩
      · exact Or.inl (List.mem_cons_of_mem _ h1)
    · rw [if_neg h] at hy
      rcases List.mem_cons.mp hy with h1 | h1
      · exact Or.inl (h1 ▸ List.mem_cons_self a l)
      · rcases ih h1 with h2 | ⟨x, hx, hyx⟩
        · exact Or.inl (List.mem_cons_of_mem _ h2)
        · exact Or.inr ⟨x, by rw [List.find?_cons_of_neg _ h]; exact hx, hyx⟩

/-- Re-reading the updated item after an id-preserving `update_one` on the
document previously found under the same id. -/
theorem findItem_updateFirst (itemId : String) (f : Item → Item)
    (hid : ∀ x, (f x).id = x.id) (items : List Item) (it : Item)
    (hfind : findItem itemId items = some it) :
    findItem itemId (updateFirst (fun x => x.id == itemId) f items) =
      some (f it) := by
  unfold findItem at hfind ⊢
  rw [find?_updateFirst _ f (fun x => by rw [show ((f x).id == itemId) = (x.id == itemId) by rw [hid]]),
    hfind]
  rfl

/-- Success path of the usage endpoint, shared between the claims about
`add_usage`. -/
theorem add_usage_eq_of_le (today itemId : String) (usage : UsageCreate)
    (items : List Item) (it : Item)
    (hfind : findItem itemId items = some it)
    (hq : usage.qty ≤ it.quantity) :
    add_usage today itemId usage items =
      (.ok { it with quantity := it.quantity - usage.qty,
                     used := it.used + usage.qty,
                     usageHistory := it.usageHistory ++ [⟨today, usage.qty⟩] },
       updateFirst (fun x => x.id == itemId)
         (fun x => { x with quantity := x.quantity - usage.qty,
                            used := x.used + usage.qty,
                            usageHistory := x.usageHistory ++ [⟨today, usage.qty⟩] })
         items) := by
  have hnot : ¬ it.quantity < usage.qty := not_lt.mpr hq
  have hre := findItem_updateFirst itemId
    (fun x => { x with quantity := x.quantity - usage.qty,
                       used := x.used + usage.qty,
                       usageHistory := x.usageHistory ++ [⟨today, usage.qty⟩] })
    (fun _ => rfl) items it hfind
  simp only [add_usage, hfind, if_neg hnot, hre]

/-- A concrete stocked item, used to instantiate the theorems. -/
def sampleItem : Item :=
  { id := "i1", residentId := "r1", name := "soap", quantity := 15, used := 0,
    min := 5, source := "購入", purchases := [], usageHistory := [] }

/-- Claim C1: when the item is present and `qty` does not exceed its current
quantity, recording usage decreases `quantity` by `qty`, increases `used` by
`qty`, appends exactly one UsageHistory record carrying today's date and
that `qty`, and returns the updated item. -/
theorem add_usage_success (today itemId : String) (usage : UsageCreate)
    (items : List Item) (it : Item)
    (hfind : findItem itemId items = some it)
    (hq : usage.qty ≤ it.quantity) :
    add_usage today itemId usage items =
      (.ok { it with quantity := it.quantity - usage.qty,
                     used := it.used + usage.qty,
                     usageHistory := it.usageHistory ++ [⟨today, usage.qty⟩] },
       updateFirst (fun x => x.id == itemId)
         (fun x => { x with quantity := x.quantity - usage.qty,
                            used := x.used + usage.qty,
                            usageHistory := x.usageHistory ++ [⟨today, usage.qty⟩] })
         items) :=
  add_usage_eq_of_le today itemId usage items it hfind hq

/-- Witness for C1: usage of qty 2 against the sample item with quantity 15
yields quantity 13, used 2, and one history record. -/
theorem add_usage_success_witness :
    add_usage "2026-01-01" "i1" ⟨2⟩ [sampleItem] =
      (.ok { sampleItem with
               quantity := sampleItem.quantity - 2,
               used := sampleItem.used + 2,
               usageHistory := sampleItem.usageHistory ++ [⟨"2026-01-01", 2⟩] },
       updateFirst (fun x => x.id == "i1")
         (fun x => { x with quantity := x.quantity - 2,
                            used := x.used + 2,
                            usageHistory := x.usageHistory ++ [⟨"2026-01-01", 2⟩] })
         [sampleItem]) :=
  add_usage_success "2026-01-01" "i1" ⟨2⟩ [sampleItem] sampleItem (by decide)
    (by decide)

/-- Claim C2: when the item is present, the usage endpoint answers with the
400 error "Not enough quantity in stock" and an unchanged collection exactly
when the requested qty exceeds the current quantity. -/
theorem add_usage_insufficient_iff (today itemId : String)
    (usage : UsageCreate) (items : List Item) (it : Item)
    (hfind : findItem itemId items = some it) :
    add_usage today itemId usage items =
        (.error ⟨400, "Not enough quantity in stock"⟩, items)
      ↔ it.quantity < usage.qty := by
  constructor
  · intro h
    by_contra hq
    rw [add_usage_eq_of_le today itemId usage items it hfind (not_lt.mp hq)] at h
    exact absurd (congrArg Prod.fst h) (by simp)
  · intro hlt
    simp only [add_usage, hfind, if_pos hlt]

/-- Witness for C2: requesting 1000 against the sample item with quantity 15
gives the 400 error and leaves the collection unchanged. -/
theorem add_usage_insufficient_iff_witness :
    add_usage "2026-01-01" "i1" ⟨1000⟩ [sampleItem] =
        (.error ⟨400, "Not enough quantity in stock"⟩, [sampleItem])
      ↔ sampleItem.quantity < (1000 : Int) :=
  add_usage_insufficient_iff "2026-01-01" "i1" ⟨1000⟩ [sampleItem] sampleItem
    (by decide)

/-- Claim C3: when the item is present, adjusting by `delta` sets its
quantity to `max 0 (quantity + delta)`, changes no other field (in
particular appends nothing to `purchases` or `usageHistory`), and returns
the updated item. -/
theorem adjust_quantity_spec (itemId : String) (delta : Int)
    (items : List Item) (it : Item)
    (hfind : findItem itemId items = some it) :
    adjust_quantity itemId delta items =
      (.ok { it with quantity := max 0 (it.quantity + delta) },
       updateFirst (fun x => x.id == itemId)
         (fun x => { x with quantity := max 0 (it.quantity + delta) })
         items) := by
  have hre := findItem_updateFirst itemId
    (fun x => { x with quantity := max 0 (it.quantity + delta) })
    (fun _ => rfl) items it hfind
  simp only [adjust_quantity, hfind, hre]

/-- Witness for C3: adjusting the sample item (quantity 15) by -20 clamps
its quantity to 0. -/
theorem adjust_quantity_spec_witness :
    adjust_quantity "i1" (-20) [sampleItem] =
      (.ok { sampleItem with quantity := max 0 (sampleItem.quantity + (-20)) },
       updateFirst (fun x => x.id == "i1")
         (fun x => { x with quantity := max 0 (sampleItem.quantity + (-20)) })
         [sampleItem]) :=
  adjust_quantity_spec "i1" (-20) [sampleItem] sampleItem (by decide)

/-- Claim C4: when the item is present, recording a purchase of any integer
`qty` (unvalidated, including zero or negative) and `price` increases the
quantity by `qty`, appends exactly one Purchase record carrying today's
date, that `qty` and that `price`, and returns the updated item. -/
theorem add_purchase_spec (today itemId : String)
    (purchase : PurchaseCreate) (items : List Item) (it : Item)
    (hfind : findItem itemId items = some it) :
    add_purchase today itemId purchase items =
      (.ok { it with quantity := it.quantity + purchase.qty,
                     purchases := it.purchases ++
                       [⟨today, purchase.qty, purchase.price⟩] },
       updateFirst (fun x => x.id == itemId)
         (fun x => { x with quantity := x.quantity + purchase.qty,
                            purchases := x.purchases ++
                              [⟨today, purchase.qty, purchase.price⟩] })
         items) := by
  have hre := findItem_updateFirst itemId
    (fun x => { x with quantity := x.quantity + purchase.qty,
                       purchases := x.purchases ++
                         [⟨today, purchase.qty, purchase.price⟩] })
    (fun _ => rfl) items it hfind
  simp only [add_purchase, hfind, hre]

/-- Witness for C4: purchasing qty -3 at price 100 against the sample item
decreases quantity from 15 to 12 and appends the record. -/
theorem add_purchase_spec_witness :
    add_purchase "2026-01-01" "i1" ⟨-3, 100⟩ [sampleItem] =
      (.ok { sampleItem with
               quantity := sampleItem.quantity + (-3),
               purchases := sampleItem.purchases ++ [⟨"2026-01-01", -3, 100⟩] },
       updateFirst (fun x => x.id == "i1")
         (fun x => { x with quantity := x.quantity + (-3),
                            purchases := x.purchases ++
                              [⟨"2026-01-01", -3, 100⟩] })
         [sampleItem]) :=
  add_purchase_spec "2026-01-01" "i1" ⟨-3, 100⟩ [sampleItem] sampleItem
    (by decide)

/-- Claim C7: the item-update endpoint fails with 404 when the id is absent;
otherwise it applies exactly the provided (non-None) fields of the body and
leaves every other field, including histories, unchanged, returning the
updated item. -/
theorem update_item_spec (itemId : String) (u : ItemUpdate)
    (items : List Item) :
    (findItem itemId items = none →
       update_item itemId u items = (.error ⟨404, "Item not found"⟩, items)) ∧
    (∀ it, findItem itemId items = some it →
       update_item itemId u items =
         (.ok { it with name := u.name.getD it.name,
                        quantity := u.quantity.getD it.quantity,
                        used := u.used.getD it.used,
                        min := u.min.getD it.min,
                        source := u.source.getD it.source },
          updateFirst (fun x => x.id == itemId) (applyItemUpdate u) items)) := by
  constructor
  · intro hnone
    simp only [update_item, hnone]
  · intro it hfind
    have hre := findItem_updateFirst itemId (applyItemUpdate u)
      (fun _ => rfl) items it hfind
    simp only [update_item, hfind, hre]
    rfl

/-- A concrete partial update: only `name` and `quantity` provided. -/
def sampleUpdate : ItemUpdate := { name := some "shampoo", quantity := some 7 }

/-- Witness for C7: the partial update touches exactly `name` and
`quantity` of the sample item. -/
theorem update_item_spec_witness :
    update_item "i1" sampleUpdate [sampleItem] =
      (.ok { sampleItem with
               name := sampleUpdate.name.getD sampleItem.name,
               quantity := sampleUpdate.quantity.getD sampleItem.quantity,
               used := sampleUpdate.used.getD sampleItem.used,
               min := sampleUpdate.min.getD sampleItem.min,
               source := sampleUpdate.source.getD sampleItem.source },
       updateFirst (fun x => x.id == "i1") (applyItemUpdate sampleUpdate)
         [sampleItem]) :=
  (update_item_spec "i1" sampleUpdate [sampleItem]).2 sampleItem (by decide)

/-- With pairwise-distinct resident ids, `delete_one` on the id filter keeps
exactly the residents whose id differs. -/
theorem mem_eraseP_iff_of_nodup_ids (residentId : String) :
    ∀ residents : List Resident, (residents.map Resident.id).Nodup →
      ∀ r : Resident,
        (r ∈ residents.eraseP (fun x => x.id == residentId) ↔
          (r ∈ residents ∧ r.id ≠ residentId)) := by
  intro residents
  induction residents with
  | nil => intro _ r; simp
  | cons a l ih =>
    intro hnd r
    rw [List.map_cons, List.nodup_cons] at hnd
    obtain ⟨ha, hl⟩ := hnd
    by_cases h : (a.id == residentId) = true
    · rw [List.eraseP_cons_of_pos (p := fun x : Resident => x.id == residentId) h]
      have haid : a.id = residentId := by rwa [beq_iff_eq] at h
      constructor
      · intro hr
        refine ⟨List.mem_cons_of_mem _ hr, fun hrid => ?_⟩
        exact ha (by rw [haid, ← hrid]; exact List.mem_map_of_mem Resident.id hr)
      · rintro ⟨hr, hrid⟩
        rcases List.mem_cons.mp hr with rfl | hr'
        · exact absurd haid hrid
        · exact hr'
    · rw [List.eraseP_cons_of_neg (p := fun x : Resident => x.id == residentId) h]
      have haid : a.id ≠ residentId := by simpa [beq_iff_eq] using h
      constructor
      · intro hr
        rcases List.mem_cons.mp hr with rfl | hr'
        · exact ⟨List.mem_cons_self _ _, haid⟩
        · obtain ⟨h1, h2⟩ := (ih hl r).mp hr'
          exact ⟨List.mem_cons_of_mem _ h1, h2⟩
      · rintro ⟨hr, hrid⟩
        rcases List.mem_cons.mp hr with rfl | hr'
        · exact List.mem_cons_self _ _
        · exact List.mem_cons_of_mem _ ((ih hl r).mpr ⟨hr', hrid⟩)

/-- Claim C5: when resident ids are pairwise distinct, deleting a resident
fails with 404 when the id is absent and leaves everything unchanged;
when the id is present it returns the confirmation message, keeps exactly
the residents with a different id, and keeps exactly the items whose
`residentId` differs (items of other residents are untouched). -/
theorem delete_resident_spec (residentId : String)
    (residents : List Resident) (items : List Item)
    (hnd : (residents.map Resident.id).Nodup) :
    ((∀ r ∈ residents, r.id ≠ residentId) →
       delete_resident residentId residents items =
         (.error ⟨404, "Resident not found"⟩, residents, items)) ∧
    ((∃ r ∈ residents, r.id = residentId) →
       (delete_resident residentId residents items).1 =
           .ok "Resident and associated items deleted successfully" ∧
       (∀ r : Resident,
          r ∈ (delete_resident residentId residents items).2.1 ↔
            (r ∈ residents ∧ r.id ≠ residentId)) ∧
       (∀ it : Item,
          it ∈ (delete_resident residentId residents items).2.2 ↔
            (it ∈ items ∧ it.residentId ≠ residentId))) := by
  constructor
  · intro hall
    have hnone : residents.find? (fun r => r.id == residentId) = none :=
      List.find?_eq_none.mpr (fun x hx => by simpa [beq_iff_eq] using hall x hx)
    simp only [delete_resident, hnone]
  · rintro ⟨r0, hr0, hr0id⟩
    cases hx : residents.find? (fun r => r.id == residentId) with
    | none =>
      exact absurd (by simpa [beq_iff_eq] using List.find?_eq_none.mp hx r0 hr0)
        (by simp [hr0id])
    | some x =>
      refine ⟨?_, ?_, ?_⟩
      · simp only [delete_resident, hx]
      · intro r
        simp only [delete_resident, hx]
        exact mem_eraseP_iff_of_nodup_ids residentId residents hnd r
      · intro it
        simp only [delete_resident, hx, List.mem_filter]
        simp [beq_iff_eq]

/-- Witness for C5: deleting resident r1 from two residents and one item
owned by r1 keeps Bob, drops the item, and returns the message. -/
theorem delete_resident_spec_witness :
    (delete_resident "r1" [⟨"r1", "Alice"⟩, ⟨"r2", "Bob"⟩] [sampleItem]).1 =
        .ok "Resident and associated items deleted successfully" ∧
    ((⟨"r2", "Bob"⟩ : Resident) ∈
        (delete_resident "r1" [⟨"r1", "Alice"⟩, ⟨"r2", "Bob"⟩]
          [sampleItem]).2.1 ↔
      ((⟨"r2", "Bob"⟩ : Resident) ∈
          ([⟨"r1", "Alice"⟩, ⟨"r2", "Bob"⟩] : List Resident) ∧
        Resident.id ⟨"r2", "Bob"⟩ ≠ "r1")) ∧
    (sampleItem ∈
        (delete_resident "r1" [⟨"r1", "Alice"⟩, ⟨"r2", "Bob"⟩]
          [sampleItem]).2.2 ↔
      (sampleItem ∈ [sampleItem] ∧ sampleItem.residentId ≠ "r1")) := by
  have h := (delete_resident_spec "r1" [⟨"r1", "Alice"⟩, ⟨"r2", "Bob"⟩]
    [sampleItem] (by decide)).2 ⟨⟨"r1", "Alice"⟩, by simp, rfl⟩
  exact ⟨h.1, h.2.1 ⟨"r2", "Bob"⟩, h.2.2 sampleItem⟩

/-- An item with zero stock, used to exhibit the invariant violation. -/
def zeroItem : Item :=
  { id := "i0", residentId := "r1", name := "rice", quantity := 0 }

/-- Claim C6 (counterexample): starting from a state whose only item has
quantity 0, recording a purchase of qty -1 (accepted without validation)
drives the stored quantity to -1, so the quantity-nonnegative invariant is
not preserved by every operation. -/
theorem quantity_invariant_cex :
    0 ≤ zeroItem.quantity ∧
    (add_purchase "2026-01-01" "i0" ⟨-1, 0⟩ [zeroItem]).2.head?.map
        Item.quantity = some (-1) ∧
    ¬ (0 : Int) ≤ -1 := by
  refine ⟨by decide, ?_, by decide⟩
  rfl

/-- Claim C6 (amended): the usage and adjust-quantity endpoints preserve
the invariant that every stored item's quantity is nonnegative; the
create, update and purchase endpoints accept unvalidated integers and can
break it. -/
theorem usage_adjust_preserve_nonneg (today itemId : String)
    (usage : UsageCreate) (delta : Int) (items : List Item)
    (h : ∀ it ∈ items, 0 ≤ it.quantity) :
    (∀ it ∈ (add_usage today itemId usage items).2, 0 ≤ it.quantity) ∧
    (∀ it ∈ (adjust_quantity itemId delta items).2, 0 ≤ it.quantity) := by
  constructor
  · intro y hy
    cases hfind : findItem itemId items with
    | none =>
      simp only [add_usage, hfind] at hy
      exact h y hy
    | some it =>
      by_cases hlt : it.quantity < usage.qty
      · simp only [add_usage, hfind, if_pos hlt] at hy
        exact h y hy
      · simp only [add_usage, hfind, if_neg hlt] at hy
        split at hy
        all_goals {
          rcases mem_updateFirst hy with hmem | ⟨x, hx, rfl⟩
          · exact h y hmem
          · simp only [findItem] at hfind
            rw [hfind] at hx
            injection hx with hx'
            subst hx'
            show 0 ≤ it.quantity - usage.qty
            omega
        }
  · intro y hy
    cases hfind : findItem itemId items with
    | none =>
      simp only [adjust_quantity, hfind] at hy
      exact h y hy
    | some it =>
      simp only [adjust_quantity, hfind] at hy
      split at hy
      all_goals {
        rcases mem_updateFirst hy with hmem | ⟨x, hx, rfl⟩
        · exact h y hmem
        · show 0 ≤ max 0 (it.quantity + delta)
          exact le_max_left 0 _
      }

/-- Witness for the amended C6: against the sample state both preserved
operations leave every quantity nonnegative. -/
theorem usage_adjust_preserve_nonneg_witness :
    (∀ it ∈ (add_usage "2026-01-01" "i1" ⟨2⟩ [sampleItem]).2,
       0 ≤ it.quantity) ∧
    (∀ it ∈ (adjust_quantity "i1" (-20) [sampleItem]).2, 0 ≤ it.quantity) :=
  usage_adjust_preserve_nonneg "2026-01-01" "i1" ⟨2⟩ (-20) [sampleItem]
    (by decide)

/-- Claim C9: every item-creation request yields an item whose `purchases`
and `usageHistory` sequences are empty, regardless of the request body; the
new item is appended to the collection as-is. -/
theorem create_item_fresh_histories (newId : String) (c : ItemCreate)
    (items : List Item) :
    (create_item newId c items).fst.purchases = [] ∧
    (create_item newId c items).fst.usageHistory = [] ∧
    (create_item newId c items).snd = items ++ [(create_item newId c items).fst] :=
  ⟨rfl, rfl, rfl⟩

/-- Claim C8 (counterexample): creating an item with the `source` field
omitted gives source `"購入"`, which is not the string `"purchased"`. -/
theorem create_item_default_source_cex :
    (create_item "i1" { residentId := "r1", name := "soap" } []).fst.source ≠ "purchased" ∧
    (create_item "i1" { residentId := "r1", name := "soap" } []).fst.source = "購入" := by
  constructor
  · decide
  · rfl

/-- Claim C8 (amended): for every item-creation request that omits the
`source` field, the created item's source is the default string `"購入"`
(Japanese for "purchased"). -/
theorem create_item_default_source (newId rid nm : String) (q u m : Int)
    (items : List Item) :
    (create_item newId
      { residentId := rid, name := nm, quantity := q, used := u, min := m }
      items).fst.source = "購入" :=
  rfl

/-- Claim C10: listing items with the resident-id filter equal to the empty
string behaves exactly like supplying no filter: all items (up to the
1000-record cap) are returned. -/
theorem get_items_empty_filter (items : List Item) :
    get_items (some "") items = get_items none items ∧
    get_items (some "") items = items.take 1000 := by
  constructor
  · rfl
  · show (items.filter fun _ => true).take 1000 = items.take 1000
    rw [List.filter_true]

end Backend
